import Mathlib

/-!
Verification of the Constrained Portfolio Optimization & Walk-Forward
Backtest Simulator core of the portfolio-app repository.

The Python sources are shallowly embedded: float series become lists of
rationals, calendar timestamps become explicit (year, month, day) records,
stateful loops become structural recursions, and fallible code returns
Except values.  External numerical libraries (the OSQP quadratic-program
solver behind cvxpy, sklearn Ledoit-Wolf shrinkage, the C math library
square root and float power) are modelled as explicit function parameters,
since their values are not part of this repository; every control-flow
decision made by the repository code itself is embedded faithfully.
-/

deriving instance DecidableEq for Except

set_option maxRecDepth 40000

namespace PortfolioApp

/-! ## Calendar dates and the pandas resample boundary set (backtests.py) -/

/-- Calendar date (year, month, day), standing in for the pandas timestamps
that index a ReturnMatrix. -/
structure Date where
  y : Nat
  m : Nat
  d : Nat
deriving DecidableEq, Repr, Inhabited

/-- Gregorian leap-year rule of the calendar underlying pandas timestamps. -/
def isLeap (y : Nat) : Bool :=
  (y % 4 == 0 && !(y % 100 == 0)) || (y % 400 == 0)

/-- Number of days of a Gregorian calendar month. -/
def daysInMonth (y m : Nat) : Nat :=
  if m = 2 then (if isLeap y then 29 else 28)
  else if m = 4 ∨ m = 6 ∨ m = 9 ∨ m = 11 then 30
  else 31

/-- Numeric key that orders valid dates chronologically. -/
def Date.key (dt : Date) : Nat := dt.y * 10000 + dt.m * 100 + dt.d

/-- A well-formed calendar date. -/
def Date.Valid (dt : Date) : Prop :=
  1 ≤ dt.m ∧ dt.m ≤ 12 ∧ 1 ≤ dt.d ∧ dt.d ≤ daysInMonth dt.y dt.m

instance (dt : Date) : Decidable dt.Valid := by
  unfold Date.Valid; infer_instance

/-- The date is the final calendar day of its month. -/
def isMonthEnd (dt : Date) : Bool := dt.d == daysInMonth dt.y dt.m

/-- Final month of the calendar quarter containing month m. -/
def quarterEndMonth (m : Nat) : Nat := ((m + 2) / 3) * 3

/-- The date is the final calendar day of its quarter. -/
def isQuarterEnd (dt : Date) : Bool := isMonthEnd dt && (dt.m % 3 == 0)

/-- The date is December 31. -/
def isYearEnd (dt : Date) : Bool := dt.m == 12 && dt.d == 31

/-- The three rebalance frequencies accepted by apply_rebalance
(freq_map keys monthly, quarterly, annual in backtests.py line 124). -/
inductive RebFreq
  | monthly
  | quarterly
  | annual
deriving DecidableEq, Repr

/-- Period-end label of the calendar period containing the date, as produced
by pandas resample with rule M, Q or A. -/
def periodEndOf : RebFreq → Date → Date
  | .monthly, dt => ⟨dt.y, dt.m, daysInMonth dt.y dt.m⟩
  | .quarterly, dt => ⟨dt.y, quarterEndMonth dt.m, daysInMonth dt.y (quarterEndMonth dt.m)⟩
  | .annual, dt => ⟨dt.y, 12, 31⟩

/-- The date is a period-end label for the given frequency. -/
def isPeriodEnd : RebFreq → Date → Bool
  | .monthly => isMonthEnd
  | .quarterly => isQuarterEnd
  | .annual => isYearEnd

/-- Membership test for set(returns.resample(rule).asfreq().index) from
backtests.py line 132.  The resample index consists of the period-end labels
of the consecutive calendar periods from the period of the first observation
to the period of the last one, so a date lies in that set iff it is a
period-end date, is not before the first observation, and is not after the
period-end label of the last observation. -/
def inResample (first last : Date) (f : RebFreq) (dt : Date) : Bool :=
  isPeriodEnd f dt && decide (first.key ≤ dt.key) &&
    decide (dt.key ≤ (periodEndOf f last).key)

/-! ## apply_rebalance (backtests.py lines 118-150) -/

/-- One row of a ReturnMatrix: a timestamp and the per-asset returns. -/
abbrev Row := Date × List ℚ

/-- Dot product of two aligned float series (pandas Series.dot). -/
def dotQ (xs ys : List ℚ) : ℚ := (List.zipWith (· * ·) xs ys).sum

/-- Sum of absolute componentwise differences,
(current_weights - target_weights).abs().sum(). -/
def sumAbsDiff (xs ys : List ℚ) : ℚ :=
  (List.zipWith (fun a b => |a - b|) xs ys).sum

/-- Weight drift over one period (backtests.py lines 145-148):
gross = (1 + daily) * current_weights; renormalize unless the total is 0. -/
def driftWeights (daily current : List ℚ) : List ℚ :=
  let gross := List.zipWith (fun r w => (1 + r) * w) daily current
  let total := gross.sum
  if total ≠ 0 then gross.map (· / total) else current

/-- The rebalance-branch condition of backtests.py line 135: the row date is
in the resample boundary set and its position in the index is not 0. -/
def rebalanceFires (rows : List Row) (f : RebFreq) (i : Nat) : Bool :=
  inResample (rows.headD default).1 (rows.getLastD default).1 f
      (rows.getD i default).1
    && !(i == 0)

/-- The iteration of backtests.py lines 134-148, accumulating the
port_returns and turnover_series lists.  On a rebalance row the code first
appends the turnover, then appends -cost to port_returns as its own entry,
resets the weights to target, and only then appends the row return; on any
other row it appends 0.0 turnover and the row return. -/
def rebalanceStep (rows : List Row) (f : RebFreq) (cost_bps : ℚ) (target : List ℚ) :
    Nat → List ℚ → List Row → (List ℚ × List ℚ)
  | _, _, [] => ([], [])
  | i, current, (dt, daily) :: rest =>
    if inResample (rows.headD default).1 (rows.getLastD default).1 f dt && !(i == 0) then
      let turnover := sumAbsDiff current target
      let cost := cost_bps / 10000 * turnover
      let out := rebalanceStep rows f cost_bps target (i + 1) (driftWeights daily target) rest
      (-cost :: dotQ daily target :: out.1, turnover :: out.2)
    else
      let out := rebalanceStep rows f cost_bps target (i + 1) (driftWeights daily current) rest
      (dotQ daily current :: out.1, 0 :: out.2)

/-- Failure modes of apply_rebalance: the explicit HTTPException for an
unknown frequency (line 126), and the pandas ValueError raised by
pd.Series(values, index) at line 150 when the list of values is not the same
length as the index. -/
inductive BTError
  | invalidFrequency
  | lengthMismatch
deriving DecidableEq, Repr

/-- Frequency strings recognized by freq_map at backtests.py line 124. -/
def parseFreq : String → Option RebFreq
  | "monthly" => some .monthly
  | "quarterly" => some .quarterly
  | "annual" => some .annual
  | _ => none

/-- apply_rebalance (backtests.py lines 118-150).  A falsy or "none"
frequency returns the plain dot-product series with zero turnover; an
unknown frequency raises; otherwise the rebalancing loop runs and the
result series are built over the original index, which raises a ValueError
when the accumulated port_returns list does not match the index length. -/
def apply_rebalance (rows : List Row) (weights : List ℚ) (frequency : Option String)
    (cost_bps : ℚ) : Except BTError (List ℚ × List ℚ) :=
  match frequency with
  | none => .ok (rows.map (fun r => dotQ r.2 weights), rows.map (fun _ => 0))
  | some f =>
    if f = "none" ∨ f = "" then
      .ok (rows.map (fun r => dotQ r.2 weights), rows.map (fun _ => 0))
    else
      match parseFreq f with
      | none => .error .invalidFrequency
      | some fk =>
        let out := rebalanceStep rows fk cost_bps weights 0 weights rows
        if out.1.length = rows.length then .ok (out.1, out.2)
        else .error .lengthMismatch

/-- Follows the specification text for claim C3: a rebalance boundary is the
first observation of each calendar month/quarter/year present in the
ReturnMatrix, strictly after the first period.  Stated for comparison with
the rebalance condition actually used by the code. -/
def periodKey : RebFreq → Date → Nat
  | .monthly, dt => dt.y * 100 + dt.m
  | .quarterly, dt => dt.y * 10 + (dt.m + 2) / 3
  | .annual, dt => dt.y

/-- Follows the specification text for claim C3: position i is a boundary
iff it is not the first row and its calendar period differs from the
previous row, i.e. it is the first observation of its period. -/
def specFirstObservationBoundary (dates : List Date) (f : RebFreq) (i : Nat) : Bool :=
  !(i == 0) && !(periodKey f (dates.getD i default) == periodKey f (dates.getD (i - 1) default))

/-- Two-row returns matrix whose second timestamp is a month end; input on
which the monthly-rebalance branch of apply_rebalance fires. -/
def exC1 : List Row :=
  [(⟨2023, 1, 30⟩, [1/100, 2/100]), (⟨2023, 1, 31⟩, [1/100, 1/100])]

/-- C1: the claim states that apply_rebalance returns one net-return entry
per input row, with the transaction cost subtracted from the same-day
return.  The code instead appends -cost to port_returns as an extra entry
(line 139) before appending the day return (line 144), so on this two-row
input with one monthly rebalance the accumulated list has three entries and
the pd.Series construction over the two-element index fails: the function
raises instead of returning the claimed pair of series. -/
theorem apply_rebalance_appends_extra_cost_entry :
    apply_rebalance exC1 [1/2, 1/2] (some "monthly") 10 = .error .lengthMismatch
    ∧ (rebalanceStep exC1 .monthly 10 [1/2, 1/2] 0 [1/2, 1/2] exC1).1.length
        = exC1.length + 1 := by
  decide

/-- Three trading days spanning a January month end: the code rebalances on
January 31 (a period-end label present in the index) and not on February 1
(the first observation of February). -/
def exC3 : List Date := [⟨2023, 1, 30⟩, ⟨2023, 1, 31⟩, ⟨2023, 2, 1⟩]

/-- Rows carrying the dates of exC3. -/
def exC3rows : List Row := exC3.map (fun dt => (dt, [0]))

/-- C3 counterexample: on the index (Jan 30, Jan 31, Feb 1) with monthly
frequency the code fires at position 1 (the month-end label Jan 31), which
is not a first observation of a month, and does not fire at position 2
(Feb 1), which is the first observation of February — the converse of the
claimed boundary set. -/
theorem rebalance_boundary_is_not_first_observation :
    rebalanceFires exC3rows .monthly 1 = true
    ∧ specFirstObservationBoundary exC3 .monthly 1 = false
    ∧ rebalanceFires exC3rows .monthly 2 = false
    ∧ specFirstObservationBoundary exC3 .monthly 2 = true := by
  decide

theorem daysInMonth_le_31 (y m : Nat) : daysInMonth y m ≤ 31 := by
  unfold daysInMonth
  split
  · split <;> omega
  · split <;> omega

theorem key_le_periodEnd (f : RebFreq) (dt : Date) (h : dt.Valid) :
    dt.key ≤ (periodEndOf f dt).key := by
  obtain ⟨y, m, d⟩ := dt
  dsimp only [Date.Valid] at h
  obtain ⟨h1, h2, h3, h4⟩ := h
  have h31 : d ≤ 31 := le_trans h4 (daysInMonth_le_31 y m)
  cases f
  · dsimp only [periodEndOf, Date.key]
    omega
  · dsimp only [periodEndOf, Date.key]
    interval_cases m <;> simp only [quarterEndMonth] <;> norm_num [daysInMonth] at h4 ⊢ <;> omega
  · dsimp only [periodEndOf, Date.key]
    omega

theorem headD_eq_getD {α : Type _} (l : List α) (d : α) : l.headD d = l.getD 0 d := by
  cases l <;> rfl

theorem getLastD_eq_getD {α : Type _} :
    ∀ (l : List α) (d : α), l.getLastD d = l.getD (l.length - 1) d
  | [], _ => rfl
  | [_], _ => rfl
  | a :: b :: t, d => by
    rw [List.getLastD_cons d a (b :: t), getLastD_eq_getD (b :: t) a]
    simp [List.getD_cons_succ]

/-- C3 amended: for a chronologically sorted ReturnMatrix of valid dates and
any of the three frequencies, the simulator rebalances exactly at those rows,
strictly after the first one, whose timestamp is the final calendar day of
its month/quarter/year; a calendar period whose final day is not an
observation gets no rebalance, and no rebalance happens on the first row or
outside the observation range. -/
theorem rebalance_exactly_at_period_end_rows (rows : List Row) (f : RebFreq) (i : Nat)
    (hvalid : ∀ r ∈ rows, r.1.Valid)
    (hsorted : (rows.map (fun r => r.1.key)).Pairwise (· < ·))
    (hi : i < rows.length) :
    rebalanceFires rows f i
      = (!(i == 0) && isPeriodEnd f ((rows.getD i default).1)) := by
  have hlen : 0 < rows.length := lt_of_le_of_lt (Nat.zero_le i) hi
  have hlast_lt : rows.length - 1 < rows.length := by omega
  have hgetd : rows.getD i default = rows[i] := List.getD_eq_getElem rows default hi
  have hhead : rows.headD default = rows[0] := by
    rw [headD_eq_getD, List.getD_eq_getElem rows default hlen]
  have hlast : rows.getLastD default = rows[rows.length - 1] := by
    rw [getLastD_eq_getD, List.getD_eq_getElem rows default hlast_lt]
  have hkey1 : rows[0].1.key ≤ rows[i].1.key := by
    rcases Nat.eq_zero_or_pos i with h0 | h0
    · subst h0; exact le_refl _
    · have hp := List.pairwise_iff_getElem.mp hsorted 0 i
        (by simpa using hlen) (by simpa using hi) h0
      simp only [List.getElem_map] at hp
      exact le_of_lt hp
  have hkey2 : rows[i].1.key ≤ rows[rows.length - 1].1.key := by
    rcases Nat.lt_or_ge i (rows.length - 1) with h0 | h0
    · have hp := List.pairwise_iff_getElem.mp hsorted i (rows.length - 1)
        (by simpa using hi) (by simpa using hlast_lt) h0
      simp only [List.getElem_map] at hp
      exact le_of_lt hp
    · have : i = rows.length - 1 := by omega
      subst this; exact le_refl _
  have hvlast : (rows[rows.length - 1]).1.Valid :=
    hvalid _ (List.getElem_mem hlast_lt)
  have hb2 : (rows[i]).1.key ≤ (periodEndOf f (rows[rows.length - 1]).1).key :=
    le_trans hkey2 (key_le_periodEnd f _ hvlast)
  unfold rebalanceFires inResample
  rw [hhead, hlast, hgetd, decide_eq_true hkey1, decide_eq_true hb2]
  simp [Bool.and_comm]

/-- Witness for the amended C3 theorem on the concrete three-day index. -/
theorem rebalance_exactly_at_period_end_rows_witness :
    (∀ r ∈ exC3rows, r.1.Valid)
    ∧ (exC3rows.map (fun r => r.1.key)).Pairwise (· < ·)
    ∧ 2 < exC3rows.length
    ∧ rebalanceFires exC3rows .monthly 2
        = (!(2 == 0) && isPeriodEnd .monthly ((exC3rows.getD 2 default).1)) :=
  ⟨by decide, by decide, by decide,
    rebalance_exactly_at_period_end_rows exC3rows .monthly 2 (by decide) (by decide) (by decide)⟩

/-! ## Extended float values

Finite IEEE doubles are modelled as exact rationals; the non-finite values
NaN, +inf and -inf are explicit constructors so that the NaN-producing and
NaN-propagating behaviour of the Python code is captured.  Overflow to
infinity and signed zero are not modelled.  The C-library square root and
float power kernels are passed in as function parameters where needed. -/

inductive EF where
  | fin : ℚ → EF
  | nan : EF
  | pinf : EF
  | ninf : EF
deriving DecidableEq, Repr, Inhabited

namespace EF

/-- IEEE negation. -/
def neg : EF → EF
  | fin q => fin (-q)
  | nan => nan
  | pinf => ninf
  | ninf => pinf

/-- IEEE addition with NaN propagation. -/
def add : EF → EF → EF
  | nan, _ => nan
  | _, nan => nan
  | fin a, fin b => fin (a + b)
  | pinf, ninf => nan
  | ninf, pinf => nan
  | pinf, _ => pinf
  | _, pinf => pinf
  | ninf, _ => ninf
  | _, ninf => ninf

/-- IEEE subtraction. -/
def sub (a b : EF) : EF := add a (neg b)

/-- IEEE multiplication with NaN propagation; zero times infinity is NaN. -/
def mul : EF → EF → EF
  | nan, _ => nan
  | _, nan => nan
  | fin a, fin b => fin (a * b)
  | fin a, pinf => if a = 0 then nan else if 0 < a then pinf else ninf
  | pinf, fin a => if a = 0 then nan else if 0 < a then pinf else ninf
  | fin a, ninf => if a = 0 then nan else if 0 < a then ninf else pinf
  | ninf, fin a => if a = 0 then nan else if 0 < a then ninf else pinf
  | pinf, pinf => pinf
  | pinf, ninf => ninf
  | ninf, pinf => ninf
  | ninf, ninf => pinf

/-- IEEE division: finite / 0 gives a signed infinity, 0 / 0 gives NaN,
finite / infinity gives 0, infinity / infinity gives NaN. -/
def div : EF → EF → EF
  | nan, _ => nan
  | _, nan => nan
  | fin a, fin b =>
      if b = 0 then (if a = 0 then nan else if 0 < a then pinf else ninf)
      else fin (a / b)
  | fin _, pinf => fin 0
  | fin _, ninf => fin 0
  | pinf, fin b => if 0 ≤ b then pinf else ninf
  | ninf, fin b => if 0 ≤ b then ninf else pinf
  | pinf, pinf => nan
  | pinf, ninf => nan
  | ninf, pinf => nan
  | ninf, ninf => nan

/-- IEEE comparison: any comparison against NaN is false. -/
def ltb : EF → EF → Bool
  | nan, _ => false
  | _, nan => false
  | fin a, fin b => decide (a < b)
  | fin _, pinf => true
  | pinf, fin _ => false
  | ninf, fin _ => true
  | fin _, ninf => false
  | ninf, pinf => true
  | pinf, ninf => false
  | pinf, pinf => false
  | ninf, ninf => false

/-- Python float inequality x != 0; true for NaN and infinities. -/
def neZero : EF → Bool
  | fin q => decide (q ≠ 0)
  | _ => true

/-- NaN test. -/
def isNaN : EF → Bool
  | nan => true
  | _ => false

/-- Absolute value. -/
def absE : EF → EF
  | fin q => fin |q|
  | nan => nan
  | pinf => pinf
  | ninf => pinf

/-- Minimum of two non-NaN values (helper for the pandas skipna minimum). -/
def min2 (a b : EF) : EF := if ltb b a then b else a

/-- pandas Series.min with skipna: NaN entries are dropped; the minimum of
an all-NaN (or empty) series is NaN. -/
def listMin (l : List EF) : EF :=
  match l.filter (fun v => !v.isNaN) with
  | [] => nan
  | x :: xs => xs.foldl min2 x

/-- numpy mean: NaN propagates, the mean of an empty array is NaN. -/
def meanNp (l : List EF) : EF :=
  if l.isEmpty then nan else div (l.foldl add (fin 0)) (fin l.length)

/-- pandas Series.mean with skipna: NaN entries are dropped first. -/
def meanPd (l : List EF) : EF :=
  match l.filter (fun v => !v.isNaN) with
  | [] => nan
  | x :: xs => div ((x :: xs).foldl add (fin 0)) (fin (x :: xs).length)

/-- The _sanitize_float helper of analytics.py lines 16-20: non-finite
values are replaced by the default 0.0. -/
def sanitize : EF → EF
  | fin q => fin q
  | _ => fin 0

/-- numpy square root: NaN for negative or NaN input, +inf for +inf.  The
value on nonnegative finite input comes from the external math kernel
sqrtF. -/
def sqrtE (sqrtF : ℚ → ℚ) : EF → EF
  | fin q => if q < 0 then nan else fin (sqrtF q)
  | nan => nan
  | pinf => pinf
  | ninf => nan

/-- numpy float power with float exponent: NaN propagates, a negative
finite base with a non-integral exponent gives NaN, zero to a positive
power is zero.  Values of genuinely float computations come from the
external kernel powF. -/
def powE (powF : ℚ → ℚ → ℚ) (b : EF) (e : ℚ) : EF :=
  match b with
  | nan => nan
  | pinf => if 0 < e then pinf else if e = 0 then fin 1 else fin 0
  | ninf =>
      if 0 < e then (if e.den = 1 ∧ e.num % 2 = 1 then ninf else pinf)
      else if e = 0 then fin 1 else fin 0
  | fin a =>
      if 0 < a then fin (powF a e)
      else if a = 0 then (if 0 < e then fin 0 else if e = 0 then fin 1 else pinf)
      else if e.den = 1 then fin (powF a e) else nan

end EF

/-! ## Shared series helpers -/

/-- Cumulative product of a rational series, pandas Series.cumprod applied
to (1 + returns) style series. -/
def cumprodQ : List ℚ → List ℚ :=
  go 1
where
  go (acc : ℚ) : List ℚ → List ℚ
    | [] => []
    | x :: xs => (acc * x) :: go (acc * x) xs

/-- Running maximum of a rational series, pandas Series.cummax. -/
def cummaxQ : List ℚ → List ℚ
  | [] => []
  | x :: xs => x :: go x xs
where
  go (m : ℚ) : List ℚ → List ℚ
    | [] => []
    | y :: ys => max m y :: go (max m y) ys

/-- Per-column mean of a DataFrame column (NaN on an empty frame). -/
def colMeanPd (c : List ℚ) : EF :=
  if c.isEmpty then EF.nan else EF.fin (c.sum / c.length)

/-- pandas sample standard deviation (Series.std, ddof = 1): NaN for fewer
than two observations, via the 0/0 in the variance quotient. -/
def stdPd (sqrtF : ℚ → ℚ) (l : List ℚ) : EF :=
  if l.isEmpty then EF.nan
  else
    let mu := l.sum / l.length
    EF.sqrtE sqrtF (EF.div (EF.fin ((l.map (fun x => (x - mu) ^ 2)).sum))
      (EF.fin ((l.length : ℚ) - 1)))

/-- numpy population standard deviation (ndarray.std, ddof = 0). -/
def stdNp (sqrtF : ℚ → ℚ) (l : List ℚ) : EF :=
  if l.isEmpty then EF.nan
  else
    let mu := l.sum / l.length
    EF.sqrtE sqrtF (EF.fin ((l.map (fun x => (x - mu) ^ 2)).sum / l.length))

/-! ## Walk-forward validation (backtesting.py lines 47-199) -/

/-- Failure modes of validate_walk_forward_window: the insufficient-data
HTTPException at line 83, the invalid-frequency HTTPException at line 106,
and the no-rebalance-points HTTPException at line 108. -/
inductive WFError
  | insufficientData
  | invalidFrequency
  | noRebalancePoints
deriving DecidableEq, Repr

/-- Stride in trading periods for each rebalance frequency
(backtesting.py lines 94-104): D, W, M, Q give 1, 5, 21, 63.  The source
compares rebalance_freq.upper() against the four letters, i.e. accepts the
lower-case letter as well. -/
def freqStride : String → Option Nat
  | "D" | "d" => some 1
  | "W" | "w" => some 5
  | "M" | "m" => some 21
  | "Q" | "q" => some 63
  | _ => none

/-- Python range(a, b, s) for a positive step s. -/
def pyRange (a b s : Nat) : List Nat :=
  (List.range (if b ≤ a then 0 else (b - a - 1) / s + 1)).map (fun k => a + s * k)

/-- Train/test index ranges of one walk-forward window
(backtesting.py lines 117-125).  Natural subtraction realizes the
max(0, train_end_idx - train_window) of line 119. -/
structure WFWindow where
  train_start : Nat
  train_end : Nat
  test_start : Nat
  test_end : Nat
deriving DecidableEq, Repr, Inhabited

/-- Window index ranges for one rebalance index: train is
[max 0 (i - train), i), test is [i, min n (i + test)). -/
def wfWindow (n train test i : Nat) : WFWindow :=
  ⟨i - train, i, i, min n (i + test)⟩

/-- All generated walk-forward windows: one per rebalance index of
range(train_window, n_periods - test_window, stride). -/
def walkForwardWindows (n train test stride : Nat) : List WFWindow :=
  (pyRange train (n - test) stride).map (wfWindow n train test)

/-- One row-slice of a returns frame, returns.iloc[a:b]. -/
def sliceRows (rows : List (List ℚ)) (a b : Nat) : List (List ℚ) :=
  (rows.drop a).take (b - a)

/-- One entry of training_performance / testing_performance; the period
field records the index position whose timestamp labels the entry. -/
structure WFPerf where
  period : Nat
  ret : EF
  vol : EF
  sharpe : EF
  n_days : Nat
deriving Repr

/-- The walk-forward report returned on success
(backtesting.py lines 188-199). -/
structure WFReport where
  out_of_sample_sharpe : EF
  out_of_sample_annual_return : EF
  out_of_sample_volatility : EF
  max_drawdown_oos : EF
  training_performance : List WFPerf
  testing_performance : List WFPerf
  performance_degradation : EF
  overfitting_indicator : String
  rebalance_count : Nat
  interpretation : String
deriving Repr

/-- DataFrame.mean().mean(): mean of the per-column means. -/
def dfMeanMean (rows : List (List ℚ)) : EF :=
  EF.meanPd ((List.transpose rows).map colMeanPd)

/-- DataFrame.std().mean(): mean of the per-column sample deviations. -/
def dfStdMean (sqrtF : ℚ → ℚ) (rows : List (List ℚ)) : EF :=
  EF.meanPd ((List.transpose rows).map (stdPd sqrtF))

/-- Per-window training or testing statistics (backtesting.py lines
127-152): annualized mean of column means, annualized mean of column
sample deviations, and their ratio guarded by vol > 1e-10. -/
def wfPerfEntry (sqrtF : ℚ → ℚ) (data : List (List ℚ)) (period : Nat) : WFPerf :=
  let r := EF.mul (dfMeanMean data) (EF.fin 252)
  let v := EF.mul (dfStdMean sqrtF data) (EF.fin (sqrtF 252))
  ⟨period, r, v, if EF.ltb (EF.fin (1 / 10000000000)) v then EF.div r v else EF.fin 0,
    data.length⟩

/-- The _interpret_walk_forward helper (backtesting.py lines 398-410); its
degradation argument is unused by the source beyond the classification
already passed in. -/
def interpretWalkForward (_degradation sharpe : EF) (overfitting : String) : String :=
  if overfitting = "high" then
    "HIGH OVERFITTING: Large gap between training and testing performance."
  else if overfitting = "medium" then
    "MEDIUM OVERFITTING: Noticeable performance degradation out-of-sample."
  else if EF.ltb (EF.fin 1) sharpe then
    "EXCELLENT: Consistent in-sample and out-of-sample performance."
  else if EF.ltb (EF.fin (1/2)) sharpe then
    "GOOD: Reasonable out-of-sample performance."
  else
    "WEAK: Low out-of-sample Sharpe."

/-- The successful branch of validate_walk_forward_window (backtesting.py
lines 114-199): per-window training/testing statistics, pooled
out-of-sample statistics, degradation ratio and classification. -/
def buildWFReport (sqrtF : ℚ → ℚ) (rows : List (List ℚ))
    (ws : List WFWindow) : WFReport :=
  let training := ws.map (fun w => wfPerfEntry sqrtF (sliceRows rows w.train_start w.train_end) w.train_end)
  let withTest := ws.filter (fun w => !(sliceRows rows w.test_start w.test_end).isEmpty)
  let testing := withTest.map (fun w => wfPerfEntry sqrtF (sliceRows rows w.test_start w.test_end) w.test_start)
  let oos : List ℚ := (withTest.map (fun w => (sliceRows rows w.test_start w.test_end).flatten)).flatten
  let oosMean := if oos.isEmpty then EF.fin 0 else EF.mul (EF.fin (oos.sum / oos.length)) (EF.fin 252)
  let oosVol := if oos.isEmpty then EF.fin 0 else EF.mul (stdNp sqrtF oos) (EF.fin (sqrtF 252))
  let oosSharpe :=
    if oos.isEmpty then EF.fin 0
    else if EF.ltb (EF.fin (1 / 10000000000)) oosVol then EF.div oosMean oosVol else EF.fin 0
  let maxDD :=
    if oos.isEmpty then EF.fin 0
    else
      let cumulative := cumprodQ (oos.map (1 + ·))
      let runmax := cummaxQ cumulative
      EF.listMin (List.zipWith (fun c m => EF.div (EF.fin (c - m)) (EF.fin m)) cumulative runmax)
  let degradation :=
    if !training.isEmpty && !testing.isEmpty then
      let avgTrain := EF.meanNp (training.map (·.ret))
      let avgTest := EF.meanNp (testing.map (·.ret))
      if EF.neZero avgTrain then EF.div (EF.sub avgTrain avgTest) (EF.absE avgTrain) else EF.fin 0
    else EF.fin 0
  let overfitting :=
    if EF.ltb degradation (EF.fin (1/10)) then "low"
    else if EF.ltb degradation (EF.fin (3/10)) then "medium"
    else "high"
  ⟨oosSharpe, oosMean, oosVol, maxDD, training, testing, degradation, overfitting,
    ws.length, interpretWalkForward degradation oosSharpe overfitting⟩

/-- validate_walk_forward_window (backtesting.py lines 47-199): fails fast
when train_window + test_window exceeds the available periods, when the
frequency is unrecognized, or when no rebalance index exists; otherwise
produces the full report. -/
def validate_walk_forward_window (sqrtF : ℚ → ℚ) (rows : List (List ℚ))
    (train test : Nat) (freq : String) : Except WFError WFReport :=
  let n := rows.length
  if train + test > n then .error .insufficientData
  else
    match freqStride freq with
    | none => .error .invalidFrequency
    | some stride =>
      let ws := walkForwardWindows n train test stride
      if ws.isEmpty then .error .noRebalancePoints
      else .ok (buildWFReport sqrtF rows ws)

/-- C4 counterexample: with 400 periods, train_window 252, test_window 63
and monthly frequency, consecutive windows advance by the monthly stride of
21 periods, not by test_window = 63 periods as claimed. -/
theorem walk_forward_slides_by_stride_not_test_window :
    freqStride "M" = some 21
    ∧ ((walkForwardWindows 400 252 63 21).getD 1 default).train_start
        = ((walkForwardWindows 400 252 63 21).getD 0 default).train_start + 21
    ∧ ((walkForwardWindows 400 252 63 21).getD 1 default).train_start
        ≠ ((walkForwardWindows 400 252 63 21).getD 0 default).train_start + 63 := by
  decide

theorem pyRange_getD (a b s j : Nat) (hj : j < (pyRange a b s).length) :
    (pyRange a b s).getD j 0 = a + s * j := by
  unfold pyRange at hj ⊢
  rw [List.getD_eq_getElem _ _ hj]
  simp

theorem walkForwardWindows_getD (n train test stride j : Nat)
    (hj : j < (walkForwardWindows n train test stride).length) :
    (walkForwardWindows n train test stride).getD j default
      = wfWindow n train test (train + stride * j) := by
  have hj' : j < (pyRange train (n - test) stride).length := by
    simpa [walkForwardWindows] using hj
  rw [List.getD_eq_getElem _ _ hj]
  unfold walkForwardWindows
  rw [List.getElem_map]
  rw [← List.getD_eq_getElem _ (0 : Nat) hj', pyRange_getD train (n - test) stride j hj']

/-- C4 amended: the windows generated by the walk-forward validator slide
forward by the frequency stride (1, 5, 21 or 63 periods for frequency D, W,
M or Q), independently of test_window; every window has test_start equal to
train_end, consecutive train ranges never move backward in time, and every
train and test range stays inside the available data. -/
theorem walk_forward_window_invariants (n train test stride : Nat) :
    (∀ w ∈ walkForwardWindows n train test stride,
      w.test_start = w.train_end ∧ w.train_start ≤ w.train_end ∧ w.test_end ≤ n)
    ∧ (∀ j, j + 1 < (walkForwardWindows n train test stride).length →
        ((walkForwardWindows n train test stride).getD (j + 1) default).train_end
          = ((walkForwardWindows n train test stride).getD j default).train_end + stride
        ∧ ((walkForwardWindows n train test stride).getD j default).train_start
          ≤ ((walkForwardWindows n train test stride).getD (j + 1) default).train_start) := by
  constructor
  · intro w hw
    obtain ⟨i, _hi, rfl⟩ := List.mem_map.mp hw
    exact ⟨rfl, Nat.sub_le i train, Nat.min_le_left n (i + test)⟩
  · intro j hj
    have hj0 : j < (walkForwardWindows n train test stride).length :=
      lt_trans (Nat.lt_succ_self j) hj
    rw [walkForwardWindows_getD n train test stride (j + 1) hj,
      walkForwardWindows_getD n train test stride j hj0]
    unfold wfWindow
    constructor
    · dsimp only
      ring
    · dsimp only
      have hmono : stride * j ≤ stride * (j + 1) :=
        Nat.mul_le_mul_left stride (Nat.le_succ j)
      exact Nat.sub_le_sub_right (Nat.add_le_add_left hmono train) train

/-- Witness for the amended C4 theorem at the concrete monthly
configuration of the counterexample. -/
theorem walk_forward_window_invariants_witness :
    (1 : Nat) + 1 < (walkForwardWindows 400 252 63 21).length
    ∧ ((walkForwardWindows 400 252 63 21).getD 2 default).train_end
        = ((walkForwardWindows 400 252 63 21).getD 1 default).train_end + 21
    ∧ ((walkForwardWindows 400 252 63 21).getD 1 default).train_start
        ≤ ((walkForwardWindows 400 252 63 21).getD 2 default).train_start :=
  ⟨by decide,
    ((walk_forward_window_invariants 400 252 63 21).2 1 (by decide)).1,
    ((walk_forward_window_invariants 400 252 63 21).2 1 (by decide)).2⟩

/-- C8: the walk-forward validator fails fast with an explicit error and
returns no report whenever train_window + test_window exceeds the available
periods, or the frequency stride yields an empty rebalance-index range; in
those cases the result is the corresponding HTTPException, never a report. -/
theorem walk_forward_fails_fast (sqrtF : ℚ → ℚ) (rows : List (List ℚ))
    (train test : Nat) (freq : String) :
    (train + test > rows.length →
      validate_walk_forward_window sqrtF rows train test freq = .error .insufficientData)
    ∧ (∀ stride, train + test ≤ rows.length → freqStride freq = some stride →
        walkForwardWindows rows.length train test stride = [] →
        validate_walk_forward_window sqrtF rows train test freq
          = .error .noRebalancePoints) := by
  constructor
  · intro h
    unfold validate_walk_forward_window
    rw [if_pos h]
  · intro stride h1 h2 h3
    unfold validate_walk_forward_window
    rw [if_neg (by omega), h2]
    simp [h3]

/-- Witness for the fail-fast theorem: a one-row frame triggers the
insufficient-data error, and a 315-row frame with monthly frequency (where
range(252, 252, 21) is empty) triggers the no-rebalance-points error. -/
theorem walk_forward_fails_fast_witness :
    (252 + 63 > ([[(0 : ℚ)]]).length
      ∧ validate_walk_forward_window id [[(0 : ℚ)]] 252 63 "M"
          = .error .insufficientData)
    ∧ (252 + 63 ≤ (List.replicate 315 [(0 : ℚ)]).length
      ∧ freqStride "M" = some 21
      ∧ walkForwardWindows (List.replicate 315 [(0 : ℚ)]).length 252 63 21 = []
      ∧ validate_walk_forward_window id (List.replicate 315 [(0 : ℚ)]) 252 63 "M"
          = .error .noRebalancePoints) :=
  ⟨⟨by decide, (walk_forward_fails_fast id [[(0 : ℚ)]] 252 63 "M").1 (by decide)⟩,
    ⟨by decide, by decide, by decide,
      (walk_forward_fails_fast id (List.replicate 315 [(0 : ℚ)]) 252 63 "M").2 21
        (by decide) (by decide) (by decide)⟩⟩

/-! ## Performance metrics engine (analytics.py lines 16-78) -/

/-- The HTTPException raised by compute_performance_stats on an empty
return series (analytics.py line 40). -/
inductive PerfErr
  | notEnoughData
deriving DecidableEq, Repr

/-- The dictionary returned by compute_performance_stats; the sharpe field
models the sharpe_ratio entry. -/
structure PerfStats where
  cumulative_return : EF
  annualized_return : EF
  annualized_volatility : EF
  sharpe : EF
  max_drawdown : EF
deriving DecidableEq, Repr

/-- equity = (1 + returns).cumprod() (analytics.py line 42). -/
def perfEquity (returns : List ℚ) : List ℚ := cumprodQ (returns.map (1 + ·))

/-- total_return = equity.iloc[-1] - 1 (line 52); the getLastD default is
never used because the caller guards against the empty series. -/
def perfTotal (returns : List ℚ) : ℚ := (perfEquity returns).getLastD 1 - 1

/-- annualized_return = (1 + total_return) ** (252 / len(returns)) - 1
(line 55); the float power comes from the external kernel powF, with the
numpy NaN rule for a negative base and non-integral exponent. -/
def perfAnnRet (powF : ℚ → ℚ → ℚ) (returns : List ℚ) : EF :=
  EF.sub (EF.powE powF (EF.fin (1 + perfTotal returns)) (252 / (returns.length : ℚ)))
    (EF.fin 1)

/-- annualized_vol = returns.std() * math.sqrt(252) (line 56); the sample
deviation is NaN for a one-element series. -/
def perfAnnVol (sqrtF : ℚ → ℚ) (returns : List ℚ) : EF :=
  EF.mul (stdPd sqrtF returns) (EF.fin (sqrtF 252))

/-- sharpe_ratio = annualized_return / annualized_vol if annualized_vol
is not equal to 0 else 0.0 (line 57); a NaN volatility compares unequal to
0 so the division runs and yields NaN. -/
def perfSharpe (sqrtF : ℚ → ℚ) (powF : ℚ → ℚ → ℚ) (returns : List ℚ) : EF :=
  if EF.neZero (perfAnnVol sqrtF returns) then
    EF.div (perfAnnRet powF returns) (perfAnnVol sqrtF returns)
  else EF.fin 0

/-- drawdowns = equity / equity.cummax() - 1 and their minimum
(lines 59-61); an equity that hits zero makes the quotient 0/0 = NaN and
the pandas minimum skips NaN entries. -/
def perfDrawdownMin (returns : List ℚ) : EF :=
  EF.listMin (List.zipWith
    (fun e m => EF.sub (EF.div (EF.fin e) (EF.fin m)) (EF.fin 1))
    (perfEquity returns) (cummaxQ (perfEquity returns)))

/-- max_drawdown floored at -0.999 (lines 64-70); a NaN minimum compares
false against the floor and is left in place (to be sanitized later). -/
def perfMaxDD (returns : List ℚ) : EF :=
  if EF.ltb (perfDrawdownMin returns) (EF.fin (-(999/1000))) then EF.fin (-(999/1000))
  else perfDrawdownMin returns

/-- compute_performance_stats (analytics.py lines 30-78): raises on an
empty series, otherwise returns the five metrics, each passed through
_sanitize_float.  The negative-equity and implausible-drawdown warnings of
the source are log output and do not affect the returned values. -/
def compute_performance_stats (sqrtF : ℚ → ℚ) (powF : ℚ → ℚ → ℚ) (returns : List ℚ) :
    Except PerfErr PerfStats :=
  if returns.isEmpty then .error .notEnoughData
  else
    .ok ⟨EF.sanitize (EF.fin (perfTotal returns)),
      EF.sanitize (perfAnnRet powF returns),
      EF.sanitize (perfAnnVol sqrtF returns),
      EF.sanitize (perfSharpe sqrtF powF returns),
      EF.sanitize (perfMaxDD returns)⟩

theorem sanitize_is_fin (v : EF) : ∃ x, EF.sanitize v = EF.fin x := by
  cases v <;> exact ⟨_, rfl⟩

theorem sanitize_guarded_div_eq_zero (A V : EF) (hv : EF.sanitize V = EF.fin 0) :
    EF.sanitize (if EF.neZero V then EF.div A V else EF.fin 0) = EF.fin 0 := by
  cases V with
  | fin q =>
    have hq : q = 0 := by simpa [EF.sanitize] using hv
    subst hq
    simp [EF.neZero, EF.sanitize]
  | nan => cases A <;> simp [EF.neZero, EF.div, EF.sanitize]
  | pinf => cases A <;> simp [EF.neZero, EF.div, EF.sanitize]
  | ninf => cases A <;> simp [EF.neZero, EF.div, EF.sanitize]

theorem sanitize_floored_dd (v : EF) :
    ∃ x, EF.sanitize (if EF.ltb v (EF.fin (-(999/1000))) then EF.fin (-(999/1000)) else v)
        = EF.fin x
      ∧ -(999/1000) ≤ x := by
  cases v with
  | fin q =>
    by_cases hq : q < -(999/1000)
    · exact ⟨-(999/1000), by simp [EF.ltb, hq, EF.sanitize], le_refl _⟩
    · exact ⟨q, by simp [EF.ltb, hq, EF.sanitize], le_of_not_lt hq⟩
  | nan => exact ⟨0, by simp [EF.ltb, EF.sanitize], by norm_num⟩
  | pinf => exact ⟨0, by simp [EF.ltb, EF.sanitize], by norm_num⟩
  | ninf => exact ⟨-(999/1000), by simp [EF.ltb, EF.sanitize], le_refl _⟩

/-- C6: on every nonempty return series the metrics engine returns a
summary whose five fields are all finite, whose Sharpe ratio is 0 whenever
the returned annualized volatility is 0, and whose max drawdown is a finite
value no smaller than the -0.999 floor; NaN or infinity never reaches the
caller. -/
theorem performance_stats_finite (sqrtF : ℚ → ℚ) (powF : ℚ → ℚ → ℚ)
    (returns : List ℚ) (h : returns ≠ []) :
    ∃ s, compute_performance_stats sqrtF powF returns = .ok s
      ∧ (∃ x, s.cumulative_return = EF.fin x)
      ∧ (∃ x, s.annualized_return = EF.fin x)
      ∧ (∃ x, s.annualized_volatility = EF.fin x)
      ∧ (∃ x, s.sharpe = EF.fin x)
      ∧ (s.annualized_volatility = EF.fin 0 → s.sharpe = EF.fin 0)
      ∧ (∃ x, s.max_drawdown = EF.fin x ∧ -(999/1000) ≤ x) := by
  refine ⟨⟨EF.sanitize (EF.fin (perfTotal returns)), EF.sanitize (perfAnnRet powF returns),
      EF.sanitize (perfAnnVol sqrtF returns), EF.sanitize (perfSharpe sqrtF powF returns),
      EF.sanitize (perfMaxDD returns)⟩,
    ?_, ?_, ?_, ?_, ?_, ?_, ?_⟩
  · unfold compute_performance_stats
    rw [if_neg (by simp [List.isEmpty_iff, h])]
  · show ∃ x, EF.sanitize (EF.fin (perfTotal returns)) = EF.fin x
    exact sanitize_is_fin _
  · show ∃ x, EF.sanitize (perfAnnRet powF returns) = EF.fin x
    exact sanitize_is_fin _
  · show ∃ x, EF.sanitize (perfAnnVol sqrtF returns) = EF.fin x
    exact sanitize_is_fin _
  · show ∃ x, EF.sanitize (perfSharpe sqrtF powF returns) = EF.fin x
    exact sanitize_is_fin _
  · show EF.sanitize (perfAnnVol sqrtF returns) = EF.fin 0 →
      EF.sanitize (perfSharpe sqrtF powF returns) = EF.fin 0
    intro hv
    exact sanitize_guarded_div_eq_zero (perfAnnRet powF returns) (perfAnnVol sqrtF returns) hv
  · show ∃ x, EF.sanitize (perfMaxDD returns) = EF.fin x ∧ -(999/1000) ≤ x
    exact sanitize_floored_dd _

/-- Witness for C6 on the concrete one-element series [0], whose sample
deviation is the NaN of a one-observation series. -/
theorem performance_stats_finite_witness :
    (([0] : List ℚ) ≠ [])
    ∧ ∃ s, compute_performance_stats id (fun a _ => a) [0] = .ok s
      ∧ (∃ x, s.cumulative_return = EF.fin x)
      ∧ (∃ x, s.annualized_return = EF.fin x)
      ∧ (∃ x, s.annualized_volatility = EF.fin x)
      ∧ (∃ x, s.sharpe = EF.fin x)
      ∧ (s.annualized_volatility = EF.fin 0 → s.sharpe = EF.fin 0)
      ∧ (∃ x, s.max_drawdown = EF.fin x ∧ -(999/1000) ≤ x) :=
  ⟨by decide, performance_stats_finite id (fun a _ => a) [0] (by decide)⟩

/-! ## Matrix helpers for the optimizer module (optimizers_v2.py)

Matrices are lists of rows of rationals.  numpy eigvalsh is applied by the
source only to symmetric covariance matrices and only through threshold
tests on the minimum eigenvalue; for a symmetric real matrix, the test
min-eigenvalue >= c is equivalent to positive semidefiniteness of M - c I,
which is embedded decidably through the principal-minors criterion. -/

/-- Matrix as a list of rows. -/
abbrev Mat := List (List ℚ)

/-- Entry access with the usual out-of-range default. -/
def getEntry (M : Mat) (i j : Nat) : ℚ := (M.getD i []).getD j 0

/-- Determinant by Laplace expansion along the first row; the fuel is the
row count, so the recursion is structural and kernel-computable. -/
def detFuel : Nat → Mat → ℚ
  | 0, _ => 1
  | _ + 1, [] => 1
  | fuel + 1, row :: rest =>
      ((List.range row.length).map
        (fun j => (if j % 2 = 0 then (1 : ℚ) else -1) * row.getD j 0
          * detFuel fuel (rest.map (fun r => r.eraseIdx j)))).sum

/-- Determinant of a square rational matrix. -/
def detQ (M : Mat) : ℚ := detFuel M.length M

/-- Principal submatrix selected by an index list. -/
def submatrixQ (M : Mat) (s : List Nat) : Mat :=
  s.map (fun i => s.map (fun j => getEntry M i j))

/-- Positive semidefiniteness of a symmetric matrix via the principal
minors criterion: every principal minor is nonnegative. -/
def psdAllMinors (M : Mat) : Bool :=
  ((List.range M.length).sublists).all (fun s => decide (0 ≤ detQ (submatrixQ M s)))

/-- M + c I. -/
def addDiag (M : Mat) (c : ℚ) : Mat :=
  M.mapIdx (fun i row => row.mapIdx (fun j x => if i = j then x + c else x))

/-- The test eigvalsh(M).min() < c for a symmetric matrix M, embedded as
the failure of positive semidefiniteness of M - c I. -/
def minEigLt (M : Mat) (c : ℚ) : Bool := ! psdAllMinors (addDiag M (-c))

/-- Matrix-vector product. -/
def matVec (M : Mat) (w : List ℚ) : List ℚ := M.map (fun row => dotQ row w)

/-- Matrix product. -/
def matMulQ (A B : Mat) : Mat :=
  A.map (fun row => (List.transpose B).map (fun col => dotQ row col))

/-- Elementwise matrix sum. -/
def matAddQ (A B : Mat) : Mat := List.zipWith (fun r s => List.zipWith (· + ·) r s) A B

/-- Scalar multiple of a matrix. -/
def scaleMat (c : ℚ) (M : Mat) : Mat := M.map (fun row => row.map (fun x => c * x))

/-- Diagonal matrix from a vector. -/
def diagMatQ (d : List ℚ) : Mat :=
  d.mapIdx (fun i _ => d.mapIdx (fun j x => if i = j then x else 0))

/-- Diagonal of a square matrix. -/
def diagQ (M : Mat) : List ℚ := (List.range M.length).map (fun i => getEntry M i i)

/-- Componentwise vector sum. -/
def vecAddQ (a b : List ℚ) : List ℚ := List.zipWith (· + ·) a b

/-- np.linalg.inv via the adjugate: raises LinAlgError exactly on a
singular matrix, otherwise returns the inverse. -/
def invQ (M : Mat) : Except Unit Mat :=
  if detQ M = 0 then .error ()
  else .ok ((List.range M.length).map (fun i =>
    (List.range M.length).map (fun j =>
      (if (i + j) % 2 = 0 then (1 : ℚ) else -1)
        * detQ ((M.eraseIdx j).map (fun r => r.eraseIdx i)) / detQ M)))

/-- rets.cov() * 252: column-mean-centered sample covariance with the
pandas ddof = 1 divisor, annualized. -/
def sampleCov252 (rows : Mat) : Mat :=
  let cols := List.transpose rows
  let centered := cols.map (fun c => c.map (fun x => x - c.sum / c.length))
  centered.map (fun ci => centered.map (fun cj =>
    dotQ ci cj / ((rows.length : ℚ) - 1) * 252))

/-- rets.mean() * 252: annualized column means. -/
def colMeans252 (rets : Mat) : List ℚ :=
  (List.transpose rets).map (fun c => c.sum / c.length * 252)

/-- Number of asset columns, rets.shape[1]. -/
def ncols (rets : Mat) : Nat := (rets.headD []).length

/-- np.mean of a nonempty float vector. -/
def meanQ (l : List ℚ) : ℚ := l.sum / l.length

/-! ## Risk parity (optimizers_v2.py lines 384-466) -/

/-- The equal-weight vector 1/N used as starting point and as fallback. -/
def equalWeights (n : Nat) : List ℚ := List.replicate n (1 / (n : ℚ))

/-- np.allclose(rc, target, atol=tol) with the numpy default rtol = 1e-5:
every risk contribution is within atol + rtol * |target| of the target. -/
def rpConverged (rc : List ℚ) (target tol : ℚ) : Bool :=
  rc.all (fun x => decide (|x - target| ≤ tol + (1/100000) * |target|))

/-- One fixed-point update of the risk-parity loop (lines 446-461):
w_new_i = max(target / ((Sigma w)_i + 1e-12), 0), then normalized when the
sum is positive, with the equal-weight fallback otherwise. -/
def rpNextFn (S : Mat) (target eps : ℚ) (w : List ℚ) : List ℚ :=
  if 0 < ((matVec S w).map (fun m => max (target / (m + eps)) 0)).sum then
    ((matVec S w).map (fun m => max (target / (m + eps)) 0)).map
      (· / ((matVec S w).map (fun m => max (target / (m + eps)) 0)).sum)
  else equalWeights S.length

/-- The risk-parity iteration (lines 434-464): at most fuel passes; each
pass first checks convergence of the risk contributions w_i (Sigma w)_i
and stops returning the current iterate; otherwise it updates, and when the
updated sum is not positive it reverts to equal weights and breaks. -/
def rpLoop (S : Mat) (target tol eps : ℚ) : Nat → List ℚ → List ℚ
  | 0, w => w
  | fuel + 1, w =>
    if rpConverged (List.zipWith (· * ·) w (matVec S w)) target tol then w
    else
      if 0 < ((matVec S w).map (fun m => max (target / (m + eps)) 0)).sum then
        rpLoop S target tol eps fuel
          (((matVec S w).map (fun m => max (target / (m + eps)) 0)).map
            (· / ((matVec S w).map (fun m => max (target / (m + eps)) 0)).sum))
      else equalWeights S.length

/-- risk_parity_weights_cvxpy (lines 384-466): regularize the covariance
by 1e-6 I when its minimum eigenvalue is below 1e-8, then run the
fixed-point iteration from equal weights with target 1/N and the 1e-12
epsilon, for at most max_iter updates (the source default is 50) with
convergence tolerance tol (source default 1e-6).  The function takes no
weight-bound constraints. -/
def risk_parity_weights_cvxpy (cov : Mat) (max_iter : Nat) (tol : ℚ) : List ℚ :=
  rpLoop (if minEigLt cov (1/100000000) then addDiag cov (1/1000000) else cov)
    (1 / (cov.length : ℚ)) tol (1/1000000000000) max_iter (equalWeights cov.length)

theorem rpLoop_iterate (S : Mat) (target tol eps : ℚ) :
    ∀ (fuel : Nat) (w : List ℚ),
      ∃ k, k ≤ fuel ∧ rpLoop S target tol eps fuel w = (rpNextFn S target eps)^[k] w := by
  intro fuel
  induction fuel with
  | zero => exact fun w => ⟨0, le_refl 0, rfl⟩
  | succ fuel ih =>
    intro w
    by_cases hc : rpConverged (List.zipWith (· * ·) w (matVec S w)) target tol = true
    · refine ⟨0, Nat.zero_le _, ?_⟩
      unfold rpLoop
      rw [if_pos hc]
      rfl
    · by_cases hs : 0 < ((matVec S w).map (fun m => max (target / (m + eps)) 0)).sum
      · obtain ⟨k, hk, he⟩ := ih
          (((matVec S w).map (fun m => max (target / (m + eps)) 0)).map
            (· / ((matVec S w).map (fun m => max (target / (m + eps)) 0)).sum))
        refine ⟨k + 1, Nat.succ_le_succ hk, ?_⟩
        unfold rpLoop
        rw [if_neg hc, if_pos hs, he, Function.iterate_succ_apply]
        unfold rpNextFn
        rw [if_pos hs]
      · refine ⟨1, Nat.succ_le_succ (Nat.zero_le _), ?_⟩
        unfold rpLoop
        rw [if_neg hc, if_neg hs, Function.iterate_one]
        unfold rpNextFn
        rw [if_neg hs]

/-- C9: the risk-parity computation terminates for every covariance input:
it starts from equal weights, the returned vector is the fixed-point
update applied at most max_iter times to the equal-weight start (over the
regularized covariance), and whenever the risk contributions of the current
iterate are already within tolerance of 1/N the loop stops at once and
returns that iterate; the loop never runs unboundedly. -/
theorem risk_parity_terminates (cov : Mat) (max_iter : Nat) (tol : ℚ) :
    (∃ k, k ≤ max_iter ∧
      risk_parity_weights_cvxpy cov max_iter tol
        = (rpNextFn (if minEigLt cov (1/100000000) then addDiag cov (1/1000000) else cov)
            (1 / (cov.length : ℚ)) (1/1000000000000))^[k] (equalWeights cov.length))
    ∧ (∀ (S : Mat) (w : List ℚ) (fuel : Nat),
        rpConverged (List.zipWith (· * ·) w (matVec S w)) (1 / (cov.length : ℚ)) tol = true →
        rpLoop S (1 / (cov.length : ℚ)) tol (1/1000000000000) (fuel + 1) w = w) := by
  constructor
  · exact rpLoop_iterate _ _ _ _ max_iter _
  · intro S w fuel hc
    unfold rpLoop
    rw [if_pos hc]

/-- Witness for the risk-parity termination theorem on a concrete 1-asset
covariance with the source defaults max_iter = 50 and tol = 1e-6. -/
theorem risk_parity_terminates_witness :
    ∃ k, k ≤ 50 ∧
      risk_parity_weights_cvxpy [[(1 : ℚ)]] 50 (1/1000000)
        = (rpNextFn
            (if minEigLt [[(1 : ℚ)]] (1/100000000) then addDiag [[(1 : ℚ)]] (1/1000000)
              else [[(1 : ℚ)]])
            (1 / (([[(1 : ℚ)]].length : ℚ))) (1/1000000000000))^[k]
            (equalWeights [[(1 : ℚ)]].length) :=
  (risk_parity_terminates [[(1 : ℚ)]] 50 (1/1000000)).1

/-! ## C2: weight-vector bounds -/

/-- A 64 x 2 ReturnMatrix with zero column means whose annualized sample
covariance is (1/4) u u^T + 2e-6 I for u = (5/4, 5): full rank, minimum
eigenvalue 2e-6, with exact risk-parity weights (4/5, 1/5). -/
def returnsC2 : Mat :=
  List.replicate 2 [(5 : ℚ)/32, 5/8] ++ List.replicate 2 [-(5 : ℚ)/32, -(5 : ℚ)/8]
    ++ [[1/2000, 0], [-(1 : ℚ)/2000, 0], [0, 1/2000], [0, -(1 : ℚ)/2000]]
    ++ List.replicate 56 [0, 0]

/-- The annualized sample covariance of returnsC2. -/
def covC2 : Mat := sampleCov252 returnsC2

/-- C2 counterexample: with the valid and feasible constraints
min_weight = 0, max_weight = 1/2 over two assets (2 * 1/2 >= 1), the
risk-parity optimizer run with its source defaults on the covariance of
the non-degenerate 64-observation ReturnMatrix returnsC2 returns a weight
vector whose first component is about 0.8, far above
max_weight + 1e-6 = 0.500001: risk parity enforces no box constraints. -/
theorem risk_parity_violates_weight_caps :
    covC2 = [[390627/1000000, 25/16], [25/16, 3125001/500000]]
    ∧ minEigLt covC2 (1/100000000) = false
    ∧ (2 : ℚ) * 0 ≤ 1 ∧ 1 ≤ (2 : ℚ) * (1/2)
    ∧ (risk_parity_weights_cvxpy covC2 50 (1/1000000)).getD 0 0 > 1/2 + 1/1000000
    ∧ (risk_parity_weights_cvxpy covC2 50 (1/1000000)).sum = 1 := by
  decide!

/-! ## Minimum variance and the institutional optimizer (C5) -/

/-- Status and variable values reported by a cvxpy prob.solve call. -/
structure QPSol where
  status : String
  value : List ℚ
deriving DecidableEq, Repr

/-- min_variance_weights_cvxpy (optimizers_v2.py lines 469-544) from the
point where the external cvxpy/OSQP solve returns.  The Ledoit-Wolf
shrinkage, eigenvalue regularization and problem construction of lines
496-530 only shape the problem handed to the external solver; what the
function returns is decided here: a raised exception (which is merely
logged) or a status outside optimal / optimal_inaccurate yields the bare
equal-weight vector, indistinguishable from a solved result. -/
def min_variance_weights_cvxpy (n : Nat) (solve : Except String QPSol) : List ℚ :=
  match solve with
  | .error _ => equalWeights n
  | .ok sol =>
    if sol.status = "optimal" ∨ sol.status = "optimal_inaccurate" then sol.value
    else equalWeights n

theorem sum_map_div (l : List ℚ) (c : ℚ) : (l.map (· / c)).sum = l.sum / c := by
  induction l with
  | nil => simp
  | cons x xs ih => simp [ih, add_div]

theorem equalWeights_sum (n : Nat) (hn : 1 ≤ n) : (equalWeights n).sum = 1 := by
  have h0 : (n : ℚ) ≠ 0 := Nat.cast_ne_zero.mpr (Nat.pos_iff_ne_zero.mp hn)
  simp [equalWeights, List.sum_replicate, nsmul_eq_mul]
  exact mul_inv_cancel₀ h0

theorem addDiag_length (M : Mat) (c : ℚ) : (addDiag M c).length = M.length := by
  simp [addDiag]

theorem rpLoop_budget (S : Mat) (target tol eps : ℚ) (hn : 1 ≤ S.length) :
    ∀ (fuel : Nat) (w : List ℚ), w.sum = 1 → (∀ x ∈ w, 0 ≤ x) →
      (rpLoop S target tol eps fuel w).sum = 1
      ∧ ∀ x ∈ rpLoop S target tol eps fuel w, 0 ≤ x := by
  intro fuel
  induction fuel with
  | zero => exact fun w h1 h2 => ⟨h1, h2⟩
  | succ fuel ih =>
    intro w h1 h2
    unfold rpLoop
    by_cases hc : rpConverged (List.zipWith (· * ·) w (matVec S w)) target tol = true
    · rw [if_pos hc]; exact ⟨h1, h2⟩
    · rw [if_neg hc]
      by_cases hs : 0 < ((matVec S w).map (fun m => max (target / (m + eps)) 0)).sum
      · rw [if_pos hs]
        apply ih
        · rw [sum_map_div]
          exact div_self (ne_of_gt hs)
        · intro x hx
          obtain ⟨y, hy, rfl⟩ := List.mem_map.mp hx
          obtain ⟨m, _hm, rfl⟩ := List.mem_map.mp hy
          exact div_nonneg (le_max_right _ 0) (le_of_lt hs)
      · rw [if_neg hs]
        refine ⟨equalWeights_sum S.length hn, ?_⟩
        intro x hx
        rw [List.eq_of_mem_replicate hx]
        positivity

/-- C2 amended: the equal-weight fallback returned by the minimum-variance
entry point on solver failure satisfies the budget bound exactly and the
box bounds for every feasible constraint set (N min_weight <= 1 <=
N max_weight); the risk-parity entry point guarantees only the budget
bound and nonnegativity — its output is not constrained by min_weight or
max_weight. -/
theorem weight_vector_bounds_amended :
    (∀ (n : Nat) (e : String) (minw maxw : ℚ), 1 ≤ n →
      (n : ℚ) * minw ≤ 1 → 1 ≤ (n : ℚ) * maxw →
      |(min_variance_weights_cvxpy n (.error e)).sum - 1| < 1/10000
      ∧ ∀ x ∈ min_variance_weights_cvxpy n (.error e),
          minw - 1/1000000 ≤ x ∧ x ≤ maxw + 1/1000000)
    ∧ (∀ (cov : Mat) (max_iter : Nat) (tol : ℚ), 1 ≤ cov.length →
      (risk_parity_weights_cvxpy cov max_iter tol).sum = 1
      ∧ ∀ x ∈ risk_parity_weights_cvxpy cov max_iter tol, 0 ≤ x) := by
  constructor
  · intro n e minw maxw hn hmin hmax
    have hpos : (0 : ℚ) < n := by
      have h1 : (1 : ℚ) ≤ (n : ℚ) := by exact_mod_cast hn
      linarith
    constructor
    · show |(equalWeights n).sum - 1| < 1/10000
      rw [equalWeights_sum n hn]
      norm_num
    · intro x hx
      have hx1 : x = 1 / (n : ℚ) := List.eq_of_mem_replicate hx
      subst hx1
      constructor
      · have : minw ≤ 1 / (n : ℚ) := by
          rw [le_div_iff₀ hpos]
          linarith [mul_comm minw (n : ℚ)]
        linarith
      · have : 1 / (n : ℚ) ≤ maxw := by
          rw [div_le_iff₀ hpos]
          linarith [mul_comm maxw (n : ℚ)]
        linarith
  · intro cov max_iter tol hn
    have hlen : 1 ≤ (if minEigLt cov (1/100000000) then addDiag cov (1/1000000) else cov).length := by
      by_cases h : minEigLt cov (1/100000000) = true
      · rw [if_pos h, addDiag_length]; exact hn
      · rw [if_neg h]; exact hn
    exact rpLoop_budget _ _ tol _ hlen max_iter (equalWeights cov.length)
      (equalWeights_sum cov.length hn)
      (fun x hx => by rw [List.eq_of_mem_replicate hx]; positivity)

/-- Witness for the amended C2 theorem: three assets under the feasible
box [0, 0.35], and risk parity on a concrete covariance. -/
theorem weight_vector_bounds_amended_witness :
    (|(min_variance_weights_cvxpy 3 (.error "OSQP raised")).sum - 1| < 1/10000
      ∧ ∀ x ∈ min_variance_weights_cvxpy 3 (.error "OSQP raised"),
          (0 : ℚ) - 1/1000000 ≤ x ∧ x ≤ 35/100 + 1/1000000)
    ∧ ((risk_parity_weights_cvxpy [[(1 : ℚ)]] 50 (1/1000000)).sum = 1
      ∧ ∀ x ∈ risk_parity_weights_cvxpy [[(1 : ℚ)]] 50 (1/1000000), 0 ≤ x) :=
  ⟨weight_vector_bounds_amended.1 3 "OSQP raised" 0 (35/100) (by norm_num) (by norm_num)
      (by norm_num),
    weight_vector_bounds_amended.2 [[(1 : ℚ)]] 50 (1/1000000) (by norm_num)⟩

/-- The optimization_details metadata of the institutional optimizer. -/
structure InstDetails where
  status : String
deriving DecidableEq, Repr

/-- The dictionary returned by institutional_portfolio_optimizer; the
failure branches omit the sharpe_ratio key, modelled by an Option. -/
structure InstResult where
  weights : List ℚ
  expected_return : ℚ
  volatility : ℚ
  sharpe : Option ℚ
  turnover : ℚ
  transaction_costs : ℚ
  details : InstDetails
deriving Repr

/-- institutional_portfolio_optimizer (optimizers_v2.py lines 718-884)
from the point where the external cvxpy/OSQP solve returns; the Ledoit-Wolf
shrinkage is the external shrinkF, the float square root is sqrtF, and the
solve outcome carries the status with the weight and turnover variable
values.  Both failure branches return equal weights with the fallback
flagged in optimization_details.status ("solver_error" for a raised
exception, the solver status otherwise). -/
def institutional_portfolio_optimizer (sqrtF : ℚ → ℚ) (shrinkF : Mat → Mat)
    (rets : Mat) (tc_bps : ℚ) (solve : Except String (String × List ℚ × List ℚ)) :
    InstResult :=
  let n := ncols rets
  let cov := shrinkF (sampleCov252 rets)
  let mean_returns := colMeans252 rets
  match solve with
  | .error _ =>
    ⟨equalWeights n, meanQ mean_returns, sqrtF (meanQ (diagQ cov)), none, 0, 0,
      ⟨"solver_error"⟩⟩
  | .ok (status, w, tvar) =>
    if status = "optimal" ∨ status = "optimal_inaccurate" then
      ⟨w, dotQ w mean_returns, sqrtF (dotQ w (matVec cov w)),
        some (dotQ w mean_returns / (sqrtF (dotQ w (matVec cov w)) + 1/10000000000)),
        tvar.sum, tvar.sum * (tc_bps / 10000), ⟨status⟩⟩
    else
      ⟨equalWeights n, meanQ mean_returns, sqrtF (meanQ (diagQ cov)), none, 0, 0,
        ⟨status⟩⟩

/-- C5 counterexample: a genuinely optimal solve whose optimum happens to
be the equal-weight vector and a raised-solver-exception fallback return
the very same value from min_variance_weights_cvxpy — the returned weight
vector carries no flag distinguishing the fallback, so the substitution is
silent for this entry point. -/
theorem min_variance_fallback_is_silent :
    min_variance_weights_cvxpy 2 (.ok ⟨"optimal", equalWeights 2⟩)
      = min_variance_weights_cvxpy 2 (.error "OSQP raised")
    ∧ min_variance_weights_cvxpy 2 (.error "OSQP raised") = equalWeights 2 := by
  constructor
  · decide!
  · rfl

/-- C5 amended: every failed QP solve (raised exception or non-optimal
status) makes the optimizer return the equal-weight vector for that
request; institutional_portfolio_optimizer flags the fallback in
optimization_details.status, while min_variance_weights_cvxpy returns the
bare vector with no flag. -/
theorem qp_fallback_flagging (n : Nat) (sol : QPSol) (e : String) (sqrtF : ℚ → ℚ)
    (shrinkF : Mat → Mat) (rets : Mat) (tc : ℚ) (status : String) (w tvar : List ℚ) :
    (min_variance_weights_cvxpy n (.error e) = equalWeights n)
    ∧ (¬(sol.status = "optimal" ∨ sol.status = "optimal_inaccurate") →
        min_variance_weights_cvxpy n (.ok sol) = equalWeights n)
    ∧ ((institutional_portfolio_optimizer sqrtF shrinkF rets tc (.error e)).weights
          = equalWeights (ncols rets)
        ∧ (institutional_portfolio_optimizer sqrtF shrinkF rets tc (.error e)).details.status
          = "solver_error")
    ∧ (¬(status = "optimal" ∨ status = "optimal_inaccurate") →
        (institutional_portfolio_optimizer sqrtF shrinkF rets tc
            (.ok (status, w, tvar))).weights = equalWeights (ncols rets)
        ∧ (institutional_portfolio_optimizer sqrtF shrinkF rets tc
            (.ok (status, w, tvar))).details.status = status) := by
  refine ⟨rfl, ?_, ⟨rfl, rfl⟩, ?_⟩
  · intro h
    simp [min_variance_weights_cvxpy, h]
  · intro h
    constructor
    · simp [institutional_portfolio_optimizer, h]
    · simp [institutional_portfolio_optimizer, h]

/-- Witness for the fallback-flagging theorem at a concrete infeasible
status. -/
theorem qp_fallback_flagging_witness :
    (min_variance_weights_cvxpy 2 (.error "x") = equalWeights 2)
    ∧ (min_variance_weights_cvxpy 2 (.ok ⟨"infeasible", []⟩) = equalWeights 2)
    ∧ ((institutional_portfolio_optimizer id id [[0, 0]] 10 (.error "x")).weights
          = equalWeights (ncols [[0, 0]])
        ∧ (institutional_portfolio_optimizer id id [[0, 0]] 10 (.error "x")).details.status
          = "solver_error")
    ∧ ((institutional_portfolio_optimizer id id [[0, 0]] 10
          (.ok ("max_iter_reached", [], []))).weights = equalWeights (ncols [[0, 0]])
        ∧ (institutional_portfolio_optimizer id id [[0, 0]] 10
          (.ok ("max_iter_reached", [], []))).details.status = "max_iter_reached") :=
  ⟨(qp_fallback_flagging 2 ⟨"infeasible", []⟩ "x" id id [[0, 0]] 10 "max_iter_reached"
      [] []).1,
    (qp_fallback_flagging 2 ⟨"infeasible", []⟩ "x" id id [[0, 0]] 10 "max_iter_reached"
      [] []).2.1 (by decide!),
    (qp_fallback_flagging 2 ⟨"infeasible", []⟩ "x" id id [[0, 0]] 10 "max_iter_reached"
      [] []).2.2.1,
    (qp_fallback_flagging 2 ⟨"infeasible", []⟩ "x" id id [[0, 0]] 10 "max_iter_reached"
      [] []).2.2.2 (by decide!)⟩

/-! ## Black-Litterman (optimizers_v2.py lines 547-648) -/

/-- The ValueError exceptions raised by black_litterman: the
positive-semidefiniteness rejection at line 587 and the invalid view
tickers at line 597.  The index-equality checks of lines 579-582 are
enforced structurally here by indexing prior, covariance and views over
one shared asset list. -/
inductive BLErr
  | notPSD
  | invalidTickers
deriving DecidableEq, Repr

/-- The pick matrix P (lines 604-609): one row per view, with a single 1
in the column of the viewed asset. -/
def blP (assets : List String) (views : List (String × ℚ)) : Mat :=
  views.map (fun v =>
    (List.range assets.length).map (fun j => if assets.indexOf v.1 = j then (1 : ℚ) else 0))

/-- Lookup with default, view_uncertainties.get(ticker, 0.05). -/
def lookupD (l : List (String × ℚ)) (k : String) (d : ℚ) : ℚ :=
  ((l.find? (fun p => p.1 == k)).map (fun p => p.2)).getD d

/-- The view-uncertainty matrix Omega (lines 612-620): by default the
diagonal of P Sigma P^T scaled by tau, otherwise the squared uncertainties
with the 0.05 default. -/
def blOmega (cov : Mat) (views : List (String × ℚ))
    (vu : Option (List (String × ℚ))) (tau : ℚ) (P : Mat) : Mat :=
  match vu with
  | none => diagMatQ ((diagQ (matMulQ (matMulQ P cov) (List.transpose P))).map (· * tau))
  | some us => diagMatQ (views.map (fun v => lookupD us v.1 (5/100) * lookupD us v.1 (5/100)))

/-- black_litterman (optimizers_v2.py lines 547-648): reject a covariance
with an eigenvalue below -1e-8; return the prior unchanged when the views
mapping is falsy; reject view tickers missing from the asset universe
before building P; then compute the posterior mean, returning the prior
unchanged if any of the three matrix inversions raises LinAlgError. -/
def black_litterman (assets : List String) (prior : List ℚ) (cov : Mat)
    (views : List (String × ℚ)) (view_uncertainties : Option (List (String × ℚ)))
    (tau : ℚ) : Except BLErr (List ℚ) :=
  if minEigLt cov (-(1/100000000)) then .error .notPSD
  else if views.isEmpty then .ok prior
  else if views.any (fun v => !(assets.contains v.1)) then .error .invalidTickers
  else
    match invQ (scaleMat tau cov) with
    | .error _ => .ok prior
    | .ok tci =>
      match invQ (blOmega cov views view_uncertainties tau (blP assets views)) with
      | .error _ => .ok prior
      | .ok oi =>
        match invQ (matAddQ tci (matMulQ (matMulQ (List.transpose (blP assets views)) oi)
            (blP assets views))) with
        | .error _ => .ok prior
        | .ok mi =>
          .ok (matVec mi (vecAddQ (matVec tci prior)
            (matVec (matMulQ (List.transpose (blP assets views)) oi)
              (views.map (fun v => v.2)))))

/-- C7: black_litterman returns the prior unchanged when the views mapping
is empty; it fails with the invalid-tickers error before any posterior
computation when a view names an asset outside the universe; and when the
inversion of tau * Sigma or of Omega fails on a singular matrix it returns
the prior unchanged instead of crashing. -/
theorem black_litterman_guards (assets : List String) (prior : List ℚ) (cov : Mat)
    (views : List (String × ℚ)) (vu : Option (List (String × ℚ))) (tau : ℚ) :
    (minEigLt cov (-(1/100000000)) = false → views = [] →
      black_litterman assets prior cov views vu tau = .ok prior)
    ∧ (minEigLt cov (-(1/100000000)) = false →
      views.any (fun v => !(assets.contains v.1)) = true →
      black_litterman assets prior cov views vu tau = .error .invalidTickers)
    ∧ (minEigLt cov (-(1/100000000)) = false →
      views.any (fun v => !(assets.contains v.1)) = false →
      (detQ (scaleMat tau cov) = 0 ∨ detQ (blOmega cov views vu tau (blP assets views)) = 0) →
      black_litterman assets prior cov views vu tau = .ok prior) := by
  refine ⟨?_, ?_, ?_⟩
  · intro hpsd hv
    subst hv
    unfold black_litterman
    rw [if_neg (by simpa using hpsd),
      if_pos (show ([] : List (String × ℚ)).isEmpty = true from rfl)]
  · intro hpsd hbad
    have hne : ¬(views.isEmpty = true) := by
      cases views with
      | nil => simp at hbad
      | cons a l => simp
    unfold black_litterman
    rw [if_neg (by simpa using hpsd), if_neg hne, if_pos hbad]
  · intro hpsd hok hdet
    by_cases hv : views.isEmpty = true
    · unfold black_litterman
      rw [if_neg (by simpa using hpsd), if_pos hv]
    · unfold black_litterman
      rw [if_neg (by simpa using hpsd), if_neg hv,
        if_neg (by rw [hok]; exact Bool.false_ne_true)]
      rcases hdet with hd1 | hd2
      · have h1 : invQ (scaleMat tau cov) = .error () := by simp [invQ, hd1]
        rw [h1]
      · cases hinv1 : invQ (scaleMat tau cov) with
        | error e => rfl
        | ok tci =>
          have h2 : invQ (blOmega cov views vu tau (blP assets views)) = .error () := by
            simp [invQ, hd2]
          rw [h2]

/-- Witness for the Black-Litterman guards: an identity covariance with no
views returns the prior; a view on a ticker outside the universe errors;
and a view with a zero uncertainty makes Omega singular, returning the
prior. -/
theorem black_litterman_guards_witness :
    (black_litterman ["A", "B"] [1/100, 2/100] [[1, 0], [0, 1]] [] none (1/40)
        = .ok [1/100, 2/100])
    ∧ (black_litterman ["A", "B"] [1/100, 2/100] [[1, 0], [0, 1]] [("C", 1/10)] none (1/40)
        = .error .invalidTickers)
    ∧ (black_litterman ["A", "B"] [1/100, 2/100] [[1, 0], [0, 1]] [("A", 1/10)]
        (some [("A", 0)]) (1/40) = .ok [1/100, 2/100]) :=
  ⟨(black_litterman_guards ["A", "B"] [1/100, 2/100] [[1, 0], [0, 1]] [] none (1/40)).1
      (by decide!) rfl,
    (black_litterman_guards ["A", "B"] [1/100, 2/100] [[1, 0], [0, 1]] [("C", 1/10)] none
        (1/40)).2.1 (by decide!) (by decide!),
    (black_litterman_guards ["A", "B"] [1/100, 2/100] [[1, 0], [0, 1]] [("A", 1/10)]
        (some [("A", 0)]) (1/40)).2.2 (by decide!) (by decide!) (Or.inr (by decide!))⟩

/-! ## Efficient frontier, single-asset branch (optimizers_v2.py lines
73-233, claim C10) -/

/-- One frontier point: annualized return, volatility and weights. -/
structure FrontierPoint where
  ret : ℚ
  vol : ℚ
  weights : List ℚ
deriving DecidableEq, Repr

/-- The dictionary returned by markowitz_frontier. -/
structure FrontierResult where
  frontier : List FrontierPoint
  max_sharpe : FrontierPoint
  min_vol : FrontierPoint
deriving DecidableEq, Repr

/-- The HTTPExceptions of markowitz_frontier (lines 142-146, 167-171,
215-219). -/
inductive MkErr
  | notPSD
  | minVarianceFailed
  | emptyFrontier
deriving DecidableEq, Repr

/-- markowitz_frontier (optimizers_v2.py lines 73-233).  The annualized
mean returns and sample covariance are computed first; a single-asset
frame short-circuits at lines 109-122 into the trivial portfolio with
weights [1.0], reused as the unique frontier point, max_sharpe and
min_vol, without any quadratic-program machinery.  For two or more assets
everything runs through sklearn shrinkage and the cvxpy/OSQP solver,
modelled as the external qpPath parameter. -/
def markowitz_frontier (sqrtF : ℚ → ℚ)
    (qpPath : Mat → Nat → ℚ → ℚ → Except MkErr FrontierResult)
    (rets : Mat) (points : Nat) (cap min_weight : ℚ) : Except MkErr FrontierResult :=
  let mean_returns := colMeans252 rets
  let cov := sampleCov252 rets
  if mean_returns.length = 1 then
    .ok ⟨[⟨mean_returns.getD 0 0, sqrtF (getEntry cov 0 0), [1]⟩],
      ⟨mean_returns.getD 0 0, sqrtF (getEntry cov 0 0), [1]⟩,
      ⟨mean_returns.getD 0 0, sqrtF (getEntry cov 0 0), [1]⟩⟩
  else qpPath rets points cap min_weight

/-- C10: on a single-asset returns matrix the efficient-frontier
computation returns exactly one frontier point with weight vector [1.0],
the max_sharpe and min_vol portfolios are that same point, and no
quadratic-program solve is involved — the result does not depend on the QP
backend at all. -/
theorem single_asset_frontier (sqrtF : ℚ → ℚ)
    (qp1 qp2 : Mat → Nat → ℚ → ℚ → Except MkErr FrontierResult)
    (rets : Mat) (points : Nat) (cap min_weight : ℚ)
    (h : (List.transpose rets).length = 1) :
    markowitz_frontier sqrtF qp1 rets points cap min_weight
      = markowitz_frontier sqrtF qp2 rets points cap min_weight
    ∧ ∃ p : FrontierPoint,
        markowitz_frontier sqrtF qp1 rets points cap min_weight = .ok ⟨[p], p, p⟩
        ∧ p.weights = [1] := by
  have hlen : (colMeans252 rets).length = 1 := by
    simp [colMeans252, h]
  constructor
  · unfold markowitz_frontier
    rw [if_pos hlen, if_pos hlen]
  · refine ⟨⟨(colMeans252 rets).getD 0 0, sqrtF (getEntry (sampleCov252 rets) 0 0), [1]⟩, ?_, rfl⟩
    unfold markowitz_frontier
    rw [if_pos hlen]

/-- Witness for the single-asset frontier on a concrete 2-day one-asset
matrix, with two different QP backends. -/
theorem single_asset_frontier_witness :
    ((List.transpose [[(1 : ℚ)/100], [2/100]]).length = 1)
    ∧ (markowitz_frontier id (fun _ _ _ _ => .error .emptyFrontier)
          [[(1 : ℚ)/100], [2/100]] 50 (35/100) 0
        = markowitz_frontier id (fun _ _ _ _ => .error .notPSD)
          [[(1 : ℚ)/100], [2/100]] 50 (35/100) 0)
    ∧ ∃ p : FrontierPoint,
        markowitz_frontier id (fun _ _ _ _ => .error .emptyFrontier)
          [[(1 : ℚ)/100], [2/100]] 50 (35/100) 0 = .ok ⟨[p], p, p⟩
        ∧ p.weights = [1] :=
  ⟨by decide,
    (single_asset_frontier id (fun _ _ _ _ => .error .emptyFrontier)
      (fun _ _ _ _ => .error .notPSD) [[(1 : ℚ)/100], [2/100]] 50 (35/100) 0 (by decide)).1,
    (single_asset_frontier id (fun _ _ _ _ => .error .emptyFrontier)
      (fun _ _ _ _ => .error .notPSD) [[(1 : ℚ)/100], [2/100]] 50 (35/100) 0 (by decide)).2⟩

end PortfolioApp
